import Mathlib

/-!
Verification of the session-booking constraint engine.

Shallow embedding of the booking core of the `fun_solutions` repository:
the constraint validator (`src/app/lib/utils/validation.js`), the booking
transaction (`src/app/api/bookings/route.js`), cancellation
(`src/app/api/bookings/[id]/route.js`), the availability projection
(`src/app/api/sessions/route.js`), the instructor enable/disable PATCH
(`src/app/api/instructor/sessions/[id]/route.js`), and the constants and
Prisma schema (`src/app/lib/constants.js`, `prisma/schema.prisma`).

The database is modelled as an explicit state (`DB`): the session catalog,
the booking ledger and a fresh-id counter standing for uuid generation.
Fallible routes return `Except`; an error mirrors the JS path that returns
an error response without committing any write.
-/

/-- Day enum from `prisma/schema.prisma` (`enum Day`). -/
inductive Day where
  | MONDAY | TUESDAY | WEDNESDAY | THURSDAY | FRIDAY | SATURDAY | SUNDAY
deriving DecidableEq, Repr

/-- TimeSlot enum from `prisma/schema.prisma` (`enum TimeSlot`). -/
inductive TimeSlot where
  | SLOT_8_10 | SLOT_10_12 | SLOT_13_15 | SLOT_15_17
  | SLOT_9_11 | SLOT_11_13 | SLOT_14_16 | SLOT_16_18
deriving DecidableEq, Repr

/-- A JSON-ish value stored in the untyped `metadata` blob of a `Session`
(the source stores e.g. `isEnabled: true` there). -/
inductive MVal where
  | bool (b : Bool)
  | str (s : String)
  | int (n : Int)
deriving DecidableEq, Repr

/-- The `Session` model from `prisma/schema.prisma`: id, day, timeSlot,
capacity, optional JSON metadata. Bookings are kept in the ledger and
looked up by `sessionId`, mirroring the relational store. -/
structure Session where
  id : Nat
  day : Day
  timeSlot : TimeSlot
  capacity : Nat
  metadata : Option (List (String × MVal))
deriving DecidableEq, Repr

/-- The `Booking` model from `prisma/schema.prisma`: id, studentId, sessionId. -/
structure Booking where
  id : Nat
  studentId : String
  sessionId : Nat
deriving DecidableEq, Repr

/-- The authoritative store: session catalog, booking ledger, and the
next fresh booking id (standing for `@default(uuid())`). -/
structure DB where
  sessions : List Session
  bookings : List Booking
  nextId : Nat
deriving DecidableEq, Repr

/-- Shape of `SESSION_CONSTRAINTS` from `src/app/lib/constants.js`. -/
structure SessionConstraints where
  MAX_CAPACITY : Nat
  MAX_DAYS_PER_STUDENT : Nat
  MAX_SESSIONS_PER_DAY : Nat

/-- The constant `SESSION_CONSTRAINTS = { MAX_CAPACITY: 6, MAX_DAYS_PER_STUDENT: 2,
MAX_SESSIONS_PER_DAY: 1 }` from `src/app/lib/constants.js`. -/
def SESSION_CONSTRAINTS : SessionConstraints :=
  { MAX_CAPACITY := 6, MAX_DAYS_PER_STUDENT := 2, MAX_SESSIONS_PER_DAY := 1 }

/-- Lookup `prisma.session.findUnique({ where: { id } })`. -/
def findSession (db : DB) (sessionId : Nat) : Option Session :=
  db.sessions.find? (fun s => decide (s.id = sessionId))

/-- All ledger rows referencing the session: `session.bookings` of the
Prisma `include: { bookings: true }`. -/
def sessionBookings (db : DB) (sessionId : Nat) : List Booking :=
  db.bookings.filter (fun b => decide (b.sessionId = sessionId))

/-- The booking count of one session, `session.bookings.length`. -/
def bookingCount (db : DB) (sessionId : Nat) : Nat :=
  (sessionBookings db sessionId).length

/-- Lookup `prisma.booking.findMany({ where: { studentId } })`. -/
def studentBookingsOf (db : DB) (studentId : String) : List Booking :=
  db.bookings.filter (fun b => decide (b.studentId = studentId))

/-- The check `studentBookings.some(b => b.session.day === session.day)`
from `validateSessionBooking`; the booking's session is resolved through
the catalog as Prisma's `include: { session: true }` does. -/
def sameDayCheck (db : DB) (studentId : String) (d : Day) : Bool :=
  (studentBookingsOf db studentId).any (fun b =>
    match findSession db b.sessionId with
    | some s => decide (s.day = d)
    | none => false)

/-- Error outcomes of the booking path, one per distinct error response of
`validateSessionBooking` and `createBooking` in the source:
`sessionNotFound` = 'Session not found', `sessionFull` =
`ERROR_MESSAGES.SESSION_FULL`, `dayAlreadyBooked` =
`ERROR_MESSAGES.DAY_ALREADY_BOOKED`, `maxDaysReached` =
`ERROR_MESSAGES.MAX_DAYS_REACHED`, `alreadyBooked` = the P2002
unique-constraint response 'You have already booked this session',
`internalError` = any uncaught exception turned into a generic 500. -/
inductive BookingError where
  | sessionNotFound
  | sessionFull
  | dayAlreadyBooked
  | maxDaysReached
  | alreadyBooked
  | internalError
deriving DecidableEq, Repr

/-- Function `validateSessionBooking(studentId, sessionId)` from
`src/app/lib/utils/validation.js`, evaluated against the state `db` it
reads: session lookup, then in order the capacity check against
`SESSION_CONSTRAINTS.MAX_CAPACITY`, the same-day check, and the max-days
check against `SESSION_CONSTRAINTS.MAX_DAYS_PER_STUDENT`. On success the
source returns `{ valid: true, session }`. -/
def validateSessionBooking (db : DB) (studentId : String) (sessionId : Nat) :
    Except BookingError Session :=
  match findSession db sessionId with
  | none => .error .sessionNotFound
  | some session =>
    if SESSION_CONSTRAINTS.MAX_CAPACITY ≤ bookingCount db sessionId then
      .error .sessionFull
    else if sameDayCheck db studentId session.day then
      .error .dayAlreadyBooked
    else if SESSION_CONSTRAINTS.MAX_DAYS_PER_STUDENT ≤
        (studentBookingsOf db studentId).length then
      .error .maxDaysReached
    else
      .ok session

/-- Function `createBooking` from `src/app/api/bookings/route.js`, with the two
read points made explicit: `pre` is the state read before the transaction
(`validateSessionBooking` and the `sessionBefore` fetch), `txn` is the
state read inside `prisma.$transaction` (the capacity double-check, the
P2002 `@@unique([studentId, sessionId])` backstop, and the insert). The
sequential behaviour of the route is `createBookingWith db db`. A missing
session inside the transaction would throw (`session.bookings` on `null`)
and surface as the generic 500, modelled as `internalError`. -/
def createBookingWith (pre txn : DB) (studentId : String) (sessionId : Nat) :
    Except BookingError (Booking × DB) :=
  match validateSessionBooking pre studentId sessionId with
  | .error e => .error e
  | .ok _ =>
    match findSession pre sessionId with
    | none => .error .sessionNotFound
    | some _ =>
      match findSession txn sessionId with
      | none => .error .internalError
      | some session =>
        if session.capacity ≤ bookingCount txn sessionId then
          .error .sessionFull
        else if txn.bookings.any (fun b =>
            decide (b.studentId = studentId ∧ b.sessionId = sessionId)) then
          .error .alreadyBooked
        else
          .ok (⟨txn.nextId, studentId, sessionId⟩,
               { txn with
                 bookings := txn.bookings ++ [⟨txn.nextId, studentId, sessionId⟩],
                 nextId := txn.nextId + 1 })

/-- Route `POST /api/bookings` run sequentially: both read points see the same
state. -/
def createBooking (db : DB) (studentId : String) (sessionId : Nat) :
    Except BookingError (Booking × DB) :=
  createBookingWith db db studentId sessionId

/-- Error outcomes of `deleteBooking`: `notFoundOrUnauthorized` =
'Booking not found or not authorized' (404), `internalError` = any
exception turned into 'Failed to cancel booking' (500). -/
inductive CancelError where
  | notFoundOrUnauthorized
  | internalError
deriving DecidableEq, Repr

/-- The `deletedBooking` payload returned by `DELETE /api/bookings/:id`. -/
structure DeletedBooking where
  id : Nat
  sessionId : Nat
  day : Day
  timeSlot : TimeSlot
deriving DecidableEq, Repr

/-- Function `deleteBooking` from `src/app/api/bookings/[id]/route.js`: a
`findFirst` scoped to both the booking id and the calling student's id
(the ownership filter baked into the lookup), a 404 if absent, session
details resolved for the response, then `prisma.booking.delete({ where:
{ id } })`. A dangling session reference would throw while building the
response, before the delete runs, hence `internalError` with no
mutation. -/
def deleteBooking (db : DB) (studentId : String) (bookingId : Nat) :
    Except CancelError (DeletedBooking × DB) :=
  match db.bookings.find? (fun b =>
      decide (b.id = bookingId ∧ b.studentId = studentId)) with
  | none => .error .notFoundOrUnauthorized
  | some booking =>
    match findSession db booking.sessionId with
    | none => .error .internalError
    | some s =>
      .ok (⟨bookingId, booking.sessionId, s.day, s.timeSlot⟩,
           { db with bookings :=
               db.bookings.filter (fun b => !decide (b.id = bookingId)) })

/-- One formatted session of the `GET /api/sessions` response. -/
structure SessionView where
  id : Nat
  day : Day
  timeSlot : TimeSlot
  capacity : Nat
  bookingCount : Nat
  availableSpots : Int
  isAvailable : Bool
  isBooked : Bool
deriving DecidableEq, Repr

/-- The per-session callback of `sessions.map((session) => ...)` in
`GET /api/sessions` (`src/app/api/sessions/route.js`): bookingCount,
`isAvailable = bookingCount < session.capacity`, `availableSpots =
session.capacity - bookingCount`, and `isBooked` from the viewing
student's own bookings (empty when unauthenticated). -/
def sessionView (db : DB) (viewer : Option String) (s : Session) : SessionView :=
  let cnt := bookingCount db s.id
  let studentBks := match viewer with
    | some stu => studentBookingsOf db stu
    | none => []
  { id := s.id
    day := s.day
    timeSlot := s.timeSlot
    capacity := s.capacity
    bookingCount := cnt
    availableSpots := (s.capacity : Int) - (cnt : Int)
    isAvailable := decide (cnt < s.capacity)
    isBooked := studentBks.any (fun b => decide (b.sessionId = s.id)) }

/-- The `formattedSessions` list of `GET /api/sessions`: the availability
projection over the whole catalog for an optional viewing student. -/
def formatSessions (db : DB) (viewer : Option String) : List SessionView :=
  db.sessions.map (sessionView db viewer)

/-- First-match lookup in a metadata object, i.e. reading a key of the
JSON blob. -/
def metaFind (m : List (String × MVal)) (k : String) : Option MVal :=
  match m with
  | [] => none
  | (k', v) :: rest => if k' = k then some v else metaFind rest k

/-- The JS object spread `{ ...metadata, k: v }`: every other key keeps
its value, `k` is set to `v`. -/
def setMeta (m : List (String × MVal)) (k : String) (v : MVal) :
    List (String × MVal) :=
  m.filter (fun kv => !decide (kv.1 = k)) ++ [(k, v)]

/-- The metadata update performed by the instructor PATCH:
`metadata: { ...(existingSession.metadata || {}), isEnabled }`. -/
def sessionSetEnabled (s : Session) (isEnabled : Bool) : Session :=
  { s with metadata := some (setMeta (s.metadata.getD []) "isEnabled" (.bool isEnabled)) }

/-- The test `session.metadata?.isEnabled === false`: the session is explicitly
disabled (absent or any other value counts as enabled in the source). -/
def sessionDisabled (s : Session) : Bool :=
  decide (metaFind (s.metadata.getD []) "isEnabled" = some (.bool false))

/-- Error outcome of the PATCH route relevant to the model (the
missing-id and non-boolean branches are unrepresentable here because the
input is typed). -/
inductive PatchError where
  | sessionNotFound
deriving DecidableEq, Repr

/-- Route `PATCH /api/instructor/sessions/:id` from
`src/unnamed/part_012` (`src/app/api/instructor/sessions/[id]/route.js`):
look up the session, 404 if absent, otherwise
`prisma.session.update({ data: { metadata: { ...existing, isEnabled } } })`.
Only the metadata field of the targeted session row changes. -/
def patchSessionEnabled (db : DB) (sessionId : Nat) (isEnabled : Bool) :
    Except PatchError DB :=
  match findSession db sessionId with
  | none => .error .sessionNotFound
  | some _ =>
    .ok { db with sessions :=
            db.sessions.map (fun t =>
              if t.id = sessionId then sessionSetEnabled t isEnabled else t) }

/-- A client-driven mutation of the booking ledger. -/
inductive Op where
  | create (studentId : String) (sessionId : Nat)
  | cancel (studentId : String) (bookingId : Nat)

/-- Apply one request to the store: a denied or failed request leaves the
store as it was (the route returns an error response without committing). -/
def applyOp (db : DB) (op : Op) : DB :=
  match op with
  | .create st se =>
    match createBooking db st se with
    | .ok (_, db') => db'
    | .error _ => db
  | .cancel st bk =>
    match deleteBooking db st bk with
    | .ok (_, db') => db'
    | .error _ => db

/-- Run a sequence of booking/cancellation requests. -/
def runOps (db : DB) (ops : List Op) : DB :=
  ops.foldl applyOp db

/-! ## Concrete states used as witnesses and counterexamples -/

/-- A capacity-1 session already holding one booking. -/
def exS1 : Session := ⟨0, Day.MONDAY, TimeSlot.SLOT_8_10, 1, none⟩

/-- Store for the capacity-invariant witness: `exS1` full with a booking
by student `b`. -/
def exDB1 : DB := ⟨[exS1], [⟨0, "b", 0⟩], 1⟩

/-- Store in which `exS1` is full (booking by student `b`) and student
`a` additionally holds a booking for another Monday session, so `a`'s
request for `exS1` hits the same-day check before any capacity check. -/
def exDB1b : DB :=
  ⟨[exS1, ⟨1, Day.MONDAY, TimeSlot.SLOT_10_12, 4, none⟩],
   [⟨0, "b", 0⟩, ⟨1, "a", 1⟩], 2⟩

/-- Two Monday sessions. -/
def exSessA : Session := ⟨0, Day.MONDAY, TimeSlot.SLOT_8_10, 4, none⟩

/-- Second Monday session, different slot. -/
def exSessB : Session := ⟨1, Day.MONDAY, TimeSlot.SLOT_10_12, 4, none⟩

/-- Pre-transaction snapshot: student `a` has no bookings. -/
def exPre2 : DB := ⟨[exSessA, exSessB], [], 0⟩

/-- In-transaction snapshot: meanwhile student `a` booked the other
Monday session, so a fresh validator run would deny `DayAlreadyBooked`. -/
def exTxn2 : DB := ⟨[exSessA, exSessB], [⟨5, "a", 1⟩], 6⟩

/-- A session whose own capacity (4) is below
`SESSION_CONSTRAINTS.MAX_CAPACITY` (6). -/
def exS3 : Session := ⟨0, Day.MONDAY, TimeSlot.SLOT_8_10, 4, none⟩

/-- Store with `exS3` filled exactly to its own capacity by four other
students. -/
def exDB3 : DB := ⟨[exS3], [⟨0, "b", 0⟩, ⟨1, "c", 0⟩, ⟨2, "d", 0⟩, ⟨3, "e", 0⟩], 4⟩

/-- A session whose own capacity (8) exceeds
`SESSION_CONSTRAINTS.MAX_CAPACITY` (6). -/
def exS3b : Session := ⟨0, Day.MONDAY, TimeSlot.SLOT_8_10, 8, none⟩

/-- Store with `exS3b` holding six bookings: below its own capacity, yet
at the global `MAX_CAPACITY` bound. -/
def exDB3b : DB :=
  ⟨[exS3b], [⟨0, "b", 0⟩, ⟨1, "c", 0⟩, ⟨2, "d", 0⟩, ⟨3, "e", 0⟩, ⟨4, "f", 0⟩, ⟨5, "g", 0⟩], 6⟩

/-- A session explicitly disabled through its metadata blob. -/
def exS4 : Session := ⟨0, Day.MONDAY, TimeSlot.SLOT_8_10, 4, some [("isEnabled", MVal.bool false)]⟩

/-- Catalog holding only the disabled session, empty ledger. -/
def exDB4 : DB := ⟨[exS4], [], 0⟩

/-- Same disabled session with one booking by student `a`. -/
def exDB4b : DB := ⟨[exS4], [⟨0, "a", 0⟩], 1⟩

/-- A disabled Tuesday session. -/
def exS5 : Session := ⟨2, Day.TUESDAY, TimeSlot.SLOT_10_12, 4, some [("isEnabled", MVal.bool false)]⟩

/-- Store for the disabled-session booking counterexample. -/
def exDB5 : DB := ⟨[exS5], [], 7⟩

/-- Session for the duplicate-booking counterexample. -/
def exS6 : Session := ⟨0, Day.MONDAY, TimeSlot.SLOT_8_10, 4, none⟩

/-- Student `a` already holds a booking for `exS6` itself. -/
def exDB6 : DB := ⟨[exS6], [⟨0, "a", 0⟩], 1⟩

/-- Session for the cancellation-ownership witness. -/
def exS7 : Session := ⟨0, Day.WEDNESDAY, TimeSlot.SLOT_13_15, 4, none⟩

/-- Booking 0 belongs to student `b`; student `a` will try to cancel it. -/
def exDB7 : DB := ⟨[exS7], [⟨0, "b", 0⟩], 1⟩

/-- Empty store. -/
def exDB8 : DB := ⟨[], [], 0⟩

/-- A free Saturday session. -/
def exS9 : Session := ⟨3, Day.SATURDAY, TimeSlot.SLOT_9_11, 4, none⟩

/-- Store for the round-trip witness. -/
def exDB9 : DB := ⟨[exS9], [], 0⟩

/-- A session carrying an unrelated metadata key. -/
def exS10 : Session := ⟨0, Day.MONDAY, TimeSlot.SLOT_8_10, 4, some [("note", MVal.str "x")]⟩

/-- Store for the PATCH frame witness: `exS10` with one booking. -/
def exDB10 : DB := ⟨[exS10], [⟨0, "a", 0⟩], 1⟩

/-! ## Helper lemmas -/

theorem validate_ok_inv {db : DB} {st : String} {sid : Nat} {s : Session}
    (h : validateSessionBooking db st sid = .ok s) :
    findSession db sid = some s ∧
    bookingCount db sid < SESSION_CONSTRAINTS.MAX_CAPACITY ∧
    sameDayCheck db st s.day = false ∧
    (studentBookingsOf db st).length < SESSION_CONSTRAINTS.MAX_DAYS_PER_STUDENT := by
  unfold validateSessionBooking at h
  split at h
  · exact absurd h (by simp)
  · rename_i s' hfind
    split at h
    · exact absurd h (by simp)
    · split at h
      · exact absurd h (by simp)
      · split at h
        · exact absurd h (by simp)
        · rename_i h1 h2 h3
          injection h with h'
          subst h'
          exact ⟨hfind, by omega, by simpa using h2, by omega⟩

theorem validate_sessionFull_inv {db : DB} {st : String} {sid : Nat}
    (h : validateSessionBooking db st sid = .error .sessionFull) :
    SESSION_CONSTRAINTS.MAX_CAPACITY ≤ bookingCount db sid := by
  unfold validateSessionBooking at h
  split at h
  · exact absurd h (by simp)
  · split at h
    · assumption
    · split at h
      · exact absurd h (by simp)
      · split at h
        · exact absurd h (by simp)
        · exact absurd h (by simp)

theorem validate_found {db : DB} {st : String} {sid : Nat}
    (hfind : findSession db sid ≠ none) :
    validateSessionBooking db st sid ≠ .error .sessionNotFound := by
  unfold validateSessionBooking
  split
  · exact absurd (by assumption) hfind
  · split
    · simp
    · split
      · simp
      · split <;> simp

theorem createBookingWith_error_of_validate {pre txn : DB} {st : String} {sid : Nat}
    {e : BookingError} (h : validateSessionBooking pre st sid = .error e) :
    createBookingWith pre txn st sid = .error e := by
  unfold createBookingWith
  rw [h]

theorem createBookingWith_ok_inv {pre txn : DB} {st : String} {sid : Nat}
    {bk : Booking} {db' : DB}
    (h : createBookingWith pre txn st sid = .ok (bk, db')) :
    (∃ s, validateSessionBooking pre st sid = .ok s) ∧
    (∃ s', findSession txn sid = some s' ∧
      bookingCount txn sid < s'.capacity) ∧
    (∀ b ∈ txn.bookings, ¬(b.studentId = st ∧ b.sessionId = sid)) ∧
    bk = ⟨txn.nextId, st, sid⟩ ∧
    db' = ⟨txn.sessions, txn.bookings ++ [⟨txn.nextId, st, sid⟩], txn.nextId + 1⟩ := by
  unfold createBookingWith at h
  split at h
  · exact absurd h (by simp)
  · rename_i s hval
    split at h
    · exact absurd h (by simp)
    · split at h
      · exact absurd h (by simp)
      · rename_i s' hfind
        split at h
        · exact absurd h (by simp)
        · split at h
          · exact absurd h (by simp)
          · rename_i hcap hdup
            injection h with h'
            injection h' with hbk hdb
            refine ⟨⟨s, hval⟩, ⟨s', hfind, by omega⟩, ?_, hbk.symm, hdb.symm⟩
            intro b hb hcontra
            exact hdup (List.any_eq_true.mpr ⟨b, hb, by simpa using hcontra⟩)

theorem createBookingWith_ok {pre txn : DB} {st : String} {sid : Nat} {s s' : Session}
    (hval : validateSessionBooking pre st sid = .ok s)
    (hfind : findSession txn sid = some s')
    (hcap : bookingCount txn sid < s'.capacity)
    (hdup : ∀ b ∈ txn.bookings, ¬(b.studentId = st ∧ b.sessionId = sid)) :
    createBookingWith pre txn st sid =
      .ok (⟨txn.nextId, st, sid⟩,
           ⟨txn.sessions, txn.bookings ++ [⟨txn.nextId, st, sid⟩], txn.nextId + 1⟩) := by
  have hpre : findSession pre sid = some s := (validate_ok_inv hval).1
  have hany : txn.bookings.any (fun b =>
      decide (b.studentId = st ∧ b.sessionId = sid)) = false := by
    rw [List.any_eq_false]
    intro b hb
    simp only [decide_eq_true_eq]
    exact hdup b hb
  unfold createBookingWith
  simp only [hval, hpre, hfind]
  rw [if_neg (by omega), if_neg (by rw [hany]; exact Bool.false_ne_true)]

theorem deleteBooking_ok_inv {db : DB} {st : String} {bid : Nat}
    {info : DeletedBooking} {db' : DB}
    (h : deleteBooking db st bid = .ok (info, db')) :
    db' = ⟨db.sessions, db.bookings.filter (fun b => !decide (b.id = bid)), db.nextId⟩ := by
  unfold deleteBooking at h
  split at h
  · exact absurd h (by simp)
  · split at h
    · exact absurd h (by simp)
    · injection h with h'
      injection h' with hinfo hdb
      exact hdb.symm

theorem bookingCount_mk (ss : List Session) (l : List Booking) (n sid : Nat) :
    bookingCount ⟨ss, l, n⟩ sid = (l.filter (fun b => decide (b.sessionId = sid))).length :=
  rfl

theorem bookingCount_insert (db : DB) (bk : Booking) (ss : List Session)
    (m sid : Nat) :
    bookingCount ⟨ss, db.bookings ++ [bk], m⟩ sid =
      bookingCount db sid + (if bk.sessionId = sid then 1 else 0) := by
  unfold bookingCount sessionBookings
  rw [List.filter_append, List.length_append]
  by_cases h : bk.sessionId = sid <;> simp [h]

theorem length_filter_filter_le (p q : Booking → Bool) (l : List Booking) :
    ((l.filter q).filter p).length ≤ (l.filter p).length :=
  List.Sublist.length_le (List.Sublist.filter p (List.filter_sublist l))

theorem bookingCount_filter_le (db : DB) (q : Booking → Bool) (ss : List Session)
    (m sid : Nat) :
    bookingCount ⟨ss, db.bookings.filter q, m⟩ sid ≤ bookingCount db sid := by
  unfold bookingCount sessionBookings
  exact length_filter_filter_le _ q db.bookings

theorem findSession_eq_of_sessions {db db' : DB} (h : db.sessions = db'.sessions)
    (sid : Nat) : findSession db sid = findSession db' sid := by
  unfold findSession
  rw [h]

theorem applyOp_sessions (db : DB) (op : Op) : (applyOp db op).sessions = db.sessions := by
  cases op with
  | create st se =>
    cases h : createBooking db st se with
    | ok p =>
      obtain ⟨bk, db'⟩ := p
      have hdb := (createBookingWith_ok_inv h).2.2.2.2
      simp [applyOp, h, hdb]
    | error e => simp [applyOp, h]
  | cancel st bk =>
    cases h : deleteBooking db st bk with
    | ok p =>
      obtain ⟨info, db'⟩ := p
      have hdb := deleteBooking_ok_inv h
      simp [applyOp, h, hdb]
    | error e => simp [applyOp, h]

theorem runOps_sessions (db : DB) (ops : List Op) :
    (runOps db ops).sessions = db.sessions := by
  induction ops generalizing db with
  | nil => rfl
  | cons op rest ih =>
    show (runOps (applyOp db op) rest).sessions = db.sessions
    rw [ih, applyOp_sessions]

theorem bookingCount_eq_of_bookings {db db' : DB} (h : db.bookings = db'.bookings)
    (sid : Nat) : bookingCount db sid = bookingCount db' sid := by
  unfold bookingCount sessionBookings
  rw [h]

theorem applyOp_count_le {db : DB} {op : Op} {sid : Nat} {s : Session}
    (hs : findSession db sid = some s)
    (hle : bookingCount db sid ≤ s.capacity) :
    bookingCount (applyOp db op) sid ≤ s.capacity := by
  cases op with
  | create st se =>
    cases h : createBooking db st se with
    | ok p =>
      obtain ⟨bk, db'⟩ := p
      obtain ⟨-, ⟨s', hfind', hcap'⟩, -, -, hdb⟩ := createBookingWith_ok_inv h
      have hredo : applyOp db (Op.create st se) = db' := by simp [applyOp, h]
      rw [hredo, hdb, bookingCount_insert db ⟨db.nextId, st, se⟩ db.sessions (db.nextId + 1) sid]
      dsimp only
      by_cases hse : se = sid
      · subst hse
        rw [hfind'] at hs
        injection hs with hs'
        subst hs'
        rw [if_pos rfl]
        omega
      · rw [if_neg hse]
        simpa using hle
    | error e =>
      have : applyOp db (Op.create st se) = db := by simp [applyOp, h]
      rw [this]; exact hle
  | cancel st bk =>
    cases h : deleteBooking db st bk with
    | ok p =>
      obtain ⟨info, db'⟩ := p
      have hdb := deleteBooking_ok_inv h
      have hredo : applyOp db (Op.cancel st bk) = db' := by simp [applyOp, h]
      rw [hredo, hdb]
      exact le_trans (bookingCount_filter_le db _ db.sessions db.nextId sid) hle
    | error e =>
      have : applyOp db (Op.cancel st bk) = db := by simp [applyOp, h]
      rw [this]; exact hle

theorem runOps_count_le {db : DB} {ops : List Op} {sid : Nat} {s : Session}
    (hs : findSession db sid = some s)
    (hle : bookingCount db sid ≤ s.capacity) :
    bookingCount (runOps db ops) sid ≤ s.capacity := by
  induction ops generalizing db with
  | nil => exact hle
  | cons op rest ih =>
    show bookingCount (runOps (applyOp db op) rest) sid ≤ s.capacity
    have hs' : findSession (applyOp db op) sid = some s := by
      rw [findSession_eq_of_sessions (applyOp_sessions db op) sid]
      exact hs
    exact ih hs' (applyOp_count_le hs hle)

theorem find?_append_of_none {p : Booking → Bool} {l₁ : List Booking}
    (h : ∀ x ∈ l₁, p x = false) (l₂ : List Booking) :
    (l₁ ++ l₂).find? p = l₂.find? p := by
  induction l₁ with
  | nil => rfl
  | cons x xs ih =>
    rw [List.cons_append, List.find?_cons, h x (by simp)]
    exact ih (fun y hy => h y (by simp [hy]))

theorem filter_eq_self_of_all {p : Booking → Bool} {l : List Booking}
    (h : ∀ x ∈ l, p x = true) : l.filter p = l := by
  induction l with
  | nil => rfl
  | cons x xs ih =>
    rw [List.filter_cons, if_pos (h x (by simp))]
    rw [ih (fun y hy => h y (by simp [hy]))]

theorem metaFind_setMeta_self (m : List (String × MVal)) (k : String) (v : MVal) :
    metaFind (setMeta m k v) k = some v := by
  unfold setMeta
  induction m with
  | nil => simp [metaFind]
  | cons kv rest ih =>
    by_cases hk : kv.1 = k
    · simpa [List.filter_cons, hk] using ih
    · obtain ⟨k', v'⟩ := kv
      simp only at hk
      simpa [List.filter_cons, hk, metaFind] using ih

theorem metaFind_nil (j : String) : metaFind [] j = none := rfl

theorem metaFind_cons (k' : String) (v' : MVal) (rest : List (String × MVal))
    (j : String) :
    metaFind ((k', v') :: rest) j = if k' = j then some v' else metaFind rest j := rfl

theorem metaFind_setMeta_other (m : List (String × MVal)) (k j : String) (v : MVal)
    (hjk : j ≠ k) : metaFind (setMeta m k v) j = metaFind m j := by
  unfold setMeta
  induction m with
  | nil =>
    rw [List.filter_nil, List.nil_append, metaFind_cons,
      if_neg (fun hc => hjk hc.symm)]
  | cons kv rest ih =>
    obtain ⟨k', v'⟩ := kv
    rw [List.filter_cons]
    by_cases hk : k' = k
    · rw [if_neg (by simp [hk]), ih, metaFind_cons,
        if_neg (by rw [hk]; exact fun hc => hjk hc.symm)]
    · rw [if_pos (by simp [hk]), List.cons_append, metaFind_cons, metaFind_cons]
      by_cases hj : k' = j
      · rw [if_pos hj, if_pos hj]
      · rw [if_neg hj, if_neg hj, ih]

/-! ## Claims -/

/-- C1 counterexample: session `exS1` is at its capacity (1 booking,
capacity 1), so student `a`'s request would exceed it, yet the operation
fails with `dayAlreadyBooked` — not `SessionFull` — because `a` already
holds a booking on the same day and the validator's same-day check runs
before the capacity comparison ever fires. The claim's unconditional
"fails with SessionFull" is false on the code. -/
theorem c1_counterexample :
    findSession exDB1b 0 = some exS1 ∧
    exS1.capacity ≤ bookingCount exDB1b 0 ∧
    createBooking exDB1b "a" 0 =
      Except.error BookingError.dayAlreadyBooked :=
  ⟨rfl, by decide, rfl⟩

/-- C1 amended: Capacity invariant. For a session `s` in the catalog,
starting from any state in which the number of bookings referencing it
is at most `s.capacity`, no sequence of `createBooking`/`cancelBooking`
requests can make that count exceed `s.capacity`; a `createBooking`
targeting the session while the count is at capacity always fails
without inserting, and it fails precisely with the `SESSION_FULL` error
whenever the request is not already denied for a per-student reason
(same-day conflict or max-days) — those earlier validator checks
produce their own denial instead, as the counterexample shows. -/
theorem c1_capacity_invariant (db : DB) (sid : Nat) (s : Session)
    (hs : findSession db sid = some s) :
    (∀ ops : List Op, bookingCount db sid ≤ s.capacity →
      bookingCount (runOps db ops) sid ≤ s.capacity) ∧
    (∀ st : String, s.capacity ≤ bookingCount db sid →
      (∃ e, createBooking db st sid = Except.error e) ∧
      (sameDayCheck db st s.day = false →
        (studentBookingsOf db st).length < SESSION_CONSTRAINTS.MAX_DAYS_PER_STUDENT →
        createBooking db st sid = Except.error BookingError.sessionFull)) := by
  constructor
  · intro ops hle
    exact runOps_count_le hs hle
  · intro st hge
    constructor
    · cases hval : validateSessionBooking db st sid with
      | error e => exact ⟨e, createBookingWith_error_of_validate hval⟩
      | ok s0 =>
        refine ⟨BookingError.sessionFull, ?_⟩
        have hfind0 : findSession db sid = some s0 := (validate_ok_inv hval).1
        rw [hs] at hfind0
        injection hfind0 with he
        subst he
        unfold createBooking createBookingWith
        simp only [hval, hs]
        rw [if_pos hge]
    · intro hday hmax
      by_cases hcap6 : SESSION_CONSTRAINTS.MAX_CAPACITY ≤ bookingCount db sid
      · have hval : validateSessionBooking db st sid = .error .sessionFull := by
          unfold validateSessionBooking
          simp only [hs]
          rw [if_pos hcap6]
        exact createBookingWith_error_of_validate hval
      · have hval : validateSessionBooking db st sid = .ok s := by
          unfold validateSessionBooking
          simp only [hs]
          rw [if_neg hcap6,
            if_neg (by rw [hday]; exact Bool.false_ne_true), if_neg (by omega)]
        unfold createBooking createBookingWith
        simp only [hval, hs]
        rw [if_pos hge]

/-- Witness for C1 at a concrete store: `exS1` has capacity 1 and one
booking, a further request by student `a` is rejected with `SESSION_FULL`
and a run containing it leaves the count at 1. -/
theorem c1_capacity_invariant_witness :
    bookingCount (runOps exDB1 [Op.create "a" 0]) 0 ≤ 1 ∧
    createBooking exDB1 "a" 0 = Except.error BookingError.sessionFull := by
  have h := c1_capacity_invariant exDB1 0 exS1 (by rfl)
  exact ⟨h.1 [Op.create "a" 0] (by decide),
    (h.2 "a" (by decide)).2 (by rfl) (by decide)⟩

/-- C7: Cancellation ownership. If no booking row has both the requested
id and the calling student's id — the booking may not exist at all, or
may belong to a different student — `deleteBooking` answers with the
single `notFoundOrUnauthorized` error in both cases and the ledger is
left unchanged. -/
theorem c7_cancellation_unauthorized (db : DB) (st : String) (bid : Nat)
    (h : ∀ b ∈ db.bookings, ¬(b.id = bid ∧ b.studentId = st)) :
    deleteBooking db st bid = Except.error CancelError.notFoundOrUnauthorized ∧
    runOps db [Op.cancel st bid] = db := by
  have hfind : db.bookings.find?
      (fun b => decide (b.id = bid ∧ b.studentId = st)) = none := by
    rw [List.find?_eq_none]
    intro b hb
    simp only [decide_eq_true_eq]
    exact h b hb
  have hd : deleteBooking db st bid = .error .notFoundOrUnauthorized := by
    unfold deleteBooking
    rw [hfind]
  refine ⟨hd, ?_⟩
  show applyOp db (Op.cancel st bid) = db
  simp [applyOp, hd]

/-- Witness for C7: student `a` attempts to cancel booking 0, which is
owned by student `b`; the answer is `notFoundOrUnauthorized` and the
store is untouched. -/
theorem c7_cancellation_unauthorized_witness :
    deleteBooking exDB7 "a" 0 = Except.error CancelError.notFoundOrUnauthorized ∧
    runOps exDB7 [Op.cancel "a" 0] = exDB7 :=
  c7_cancellation_unauthorized exDB7 "a" 0 (by decide)

/-- C8: Denials are side-effect-free. A validator denial propagates
verbatim as the result of `createBooking` (the validator runs before any
mutation), and any failing `createBooking` or `deleteBooking` — including
the in-transaction capacity abort — leaves the store exactly as it
was. -/
theorem c8_denial_no_side_effect (db : DB) (st : String) (sid bid : Nat) :
    (∀ e, validateSessionBooking db st sid = Except.error e →
      createBooking db st sid = Except.error e) ∧
    (∀ e, createBooking db st sid = Except.error e →
      runOps db [Op.create st sid] = db) ∧
    (∀ e, deleteBooking db st bid = Except.error e →
      runOps db [Op.cancel st bid] = db) := by
  refine ⟨fun e he => createBookingWith_error_of_validate he,
    fun e he => ?_, fun e he => ?_⟩
  · show applyOp db (Op.create st sid) = db
    simp [applyOp, he]
  · show applyOp db (Op.cancel st bid) = db
    simp [applyOp, he]

/-- Witness for C8 on the empty store: booking a nonexistent session is
denied with `sessionNotFound` and both failing operations leave the store
unchanged. -/
theorem c8_denial_no_side_effect_witness :
    createBooking exDB8 "a" 5 = Except.error BookingError.sessionNotFound ∧
    runOps exDB8 [Op.create "a" 5] = exDB8 ∧
    runOps exDB8 [Op.cancel "a" 5] = exDB8 := by
  have h := c8_denial_no_side_effect exDB8 "a" 5 5
  have h1 := h.1 BookingError.sessionNotFound (by rfl)
  exact ⟨h1, h.2.1 _ h1, h.2.2 CancelError.notFoundOrUnauthorized (by rfl)⟩

/-- C2 counterexample: with the pre-transaction snapshot `exPre2` (student
`a` holds nothing) and the in-transaction snapshot `exTxn2` (student `a`
meanwhile booked the other Monday session), the insert goes through even
though `validateSessionBooking` evaluated on the freshly-read in-transaction
snapshot would deny with `dayAlreadyBooked`: the full check set is NOT
re-evaluated inside the transaction. -/
theorem c2_counterexample :
    createBookingWith exPre2 exTxn2 "a" 0 =
      Except.ok (⟨6, "a", 0⟩,
        ⟨[exSessA, exSessB], [⟨5, "a", 1⟩, ⟨6, "a", 0⟩], 7⟩) ∧
    validateSessionBooking exTxn2 "a" 0 =
      Except.error BookingError.dayAlreadyBooked :=
  ⟨rfl, rfl⟩

/-- C2 amended: only the capacity check (against the session's own
capacity) and the storage uniqueness backstop are evaluated on the
in-transaction snapshot; the remaining validator checks (existence,
MAX_CAPACITY, same-day, max-days) are evaluated on the pre-transaction
read. The insert happens, in the transaction snapshot, exactly when the
pre-transaction validator allowed, the in-transaction capacity check
passes, and no duplicate (student, session) row exists in the
transaction snapshot. -/
theorem c2_amended_transaction_checks (pre txn : DB) (st : String) (sid : Nat) :
    ((∃ bk db', createBookingWith pre txn st sid = Except.ok (bk, db')) ↔
      ((∃ s, validateSessionBooking pre st sid = Except.ok s) ∧
       (∃ s', findSession txn sid = some s' ∧
         bookingCount txn sid < s'.capacity) ∧
       (∀ b ∈ txn.bookings, ¬(b.studentId = st ∧ b.sessionId = sid)))) ∧
    (∀ bk db', createBookingWith pre txn st sid = Except.ok (bk, db') →
      bk = ⟨txn.nextId, st, sid⟩ ∧
      db' = ⟨txn.sessions, txn.bookings ++ [⟨txn.nextId, st, sid⟩],
             txn.nextId + 1⟩) := by
  constructor
  · constructor
    · rintro ⟨bk, db', h⟩
      obtain ⟨h1, h2, h3, -, -⟩ := createBookingWith_ok_inv h
      exact ⟨h1, h2, h3⟩
    · rintro ⟨⟨s, hval⟩, ⟨s', hfind, hcap⟩, hdup⟩
      exact ⟨_, _, createBookingWith_ok hval hfind hcap hdup⟩
  · intro bk db' h
    obtain ⟨-, -, -, hbk, hdb⟩ := createBookingWith_ok_inv h
    exact ⟨hbk, hdb⟩

/-- Witness for the amended C2 at the concrete snapshots. -/
theorem c2_amended_transaction_checks_witness :
    (⟨6, "a", 0⟩ : Booking) = ⟨exTxn2.nextId, "a", 0⟩ ∧
    (⟨[exSessA, exSessB], [⟨5, "a", 1⟩, ⟨6, "a", 0⟩], 7⟩ : DB) =
      ⟨exTxn2.sessions, exTxn2.bookings ++ [⟨exTxn2.nextId, "a", 0⟩],
       exTxn2.nextId + 1⟩ :=
  (c2_amended_transaction_checks exPre2 exTxn2 "a" 0).2 ⟨6, "a", 0⟩
    ⟨[exSessA, exSessB], [⟨5, "a", 1⟩, ⟨6, "a", 0⟩], 7⟩ rfl

/-- C3 counterexample: `exS3` exists, is enabled, and holds exactly
`capacity = 4` bookings, yet `validateSessionBooking` allows a fresh
student instead of denying `SessionFull`: the validator compares the
count against the global `MAX_CAPACITY` constant (6), not the session's
own capacity field. -/
theorem c3_counterexample :
    validateSessionBooking exDB3 "a" 0 = Except.ok exS3 ∧
    exS3.capacity ≤ bookingCount exDB3 0 :=
  ⟨rfl, by decide⟩

/-- C3 amended: for an existing session, the validator denies
`SessionFull` if and only if the session's booking count has reached
`SESSION_CONSTRAINTS.MAX_CAPACITY` (6), independent of the session's own
capacity field (which is enforced separately inside the transaction). -/
theorem c3_amended_validator_capacity (db : DB) (st : String) (sid : Nat)
    (s : Session) (hs : findSession db sid = some s) :
    validateSessionBooking db st sid = Except.error BookingError.sessionFull ↔
      SESSION_CONSTRAINTS.MAX_CAPACITY ≤ bookingCount db sid := by
  constructor
  · exact validate_sessionFull_inv
  · intro h6
    unfold validateSessionBooking
    simp only [hs]
    rw [if_pos h6]

/-- Witness for the amended C3: six bookings trigger the validator's
`SessionFull` even though the session's own capacity (8) is not yet
reached. -/
theorem c3_amended_validator_capacity_witness :
    validateSessionBooking exDB3b "a" 0 = Except.error BookingError.sessionFull ∧
    bookingCount exDB3b 0 < exS3b.capacity :=
  ⟨(c3_amended_validator_capacity exDB3b "a" 0 exS3b rfl).mpr (by decide),
    by decide⟩

/-- C6 counterexample: student `a` already holds a booking for exactly
session 0 and requests it again; the validator denies with
`dayAlreadyBooked` (the same-day check fires first), not with a
duplicate-booking reason — the validator has no duplicate check at
all. -/
theorem c6_counterexample :
    (∃ b ∈ exDB6.bookings, b.studentId = "a" ∧ b.sessionId = 0) ∧
    validateSessionBooking exDB6 "a" 0 =
      Except.error BookingError.dayAlreadyBooked :=
  ⟨by decide, rfl⟩

/-- C6 amended: when the student already holds a booking for the target
session, the validator denies — but with `dayAlreadyBooked` (or
`sessionFull` when the global capacity bound already fires earlier); the
duplicate-specific response exists only as the storage-layer P2002
backstop. -/
theorem c6_amended_duplicate_denied (db : DB) (st : String) (sid : Nat)
    (s : Session) (hs : findSession db sid = some s)
    (b : Booking) (hb : b ∈ db.bookings) (hst : b.studentId = st)
    (hse : b.sessionId = sid) :
    validateSessionBooking db st sid = Except.error BookingError.dayAlreadyBooked ∨
    validateSessionBooking db st sid = Except.error BookingError.sessionFull := by
  by_cases h6 : SESSION_CONSTRAINTS.MAX_CAPACITY ≤ bookingCount db sid
  · right
    unfold validateSessionBooking
    simp only [hs]
    rw [if_pos h6]
  · left
    have hday : sameDayCheck db st s.day = true := by
      unfold sameDayCheck
      rw [List.any_eq_true]
      refine ⟨b, ?_, ?_⟩
      · unfold studentBookingsOf
        rw [List.mem_filter]
        exact ⟨hb, by simp [hst]⟩
      · rw [hse, hs]
        simp
    unfold validateSessionBooking
    simp only [hs]
    rw [if_neg h6, if_pos hday]

/-- Witness for the amended C6 at the concrete duplicate request. -/
theorem c6_amended_duplicate_denied_witness :
    validateSessionBooking exDB6 "a" 0 =
      Except.error BookingError.dayAlreadyBooked ∨
    validateSessionBooking exDB6 "a" 0 =
      Except.error BookingError.sessionFull :=
  c6_amended_duplicate_denied exDB6 "a" 0 exS6 rfl ⟨0, "a", 0⟩ (by decide) rfl rfl

/-- C4 counterexample: `exS4` is explicitly disabled
(`metadata.isEnabled === false`) and empty, yet `GET /api/sessions`
reports it with `isAvailable = true`: the projection computes
`isAvailable = bookingCount < capacity` and never consults the enabled
flag. -/
theorem c4_counterexample :
    sessionDisabled exS4 = true ∧
    formatSessions exDB4 none =
      [⟨0, Day.MONDAY, TimeSlot.SLOT_8_10, 4, 0, 4, true, false⟩] :=
  ⟨rfl, rfl⟩

/-- C4 amended: for every catalog session the projection reports
`availableSpots = capacity − bookingCount` and
`isAvailable = availableSpots > 0` — the enabled flag plays no role
(the view is invariant under any change of the metadata blob) — and
`isBooked` holds exactly when the viewing student has a booking for that
session (always false for an unauthenticated viewer). -/
theorem c4_amended_projection (db : DB) (viewer : Option String) (s : Session)
    (hs : s ∈ db.sessions) :
    sessionView db viewer s ∈ formatSessions db viewer ∧
    (sessionView db viewer s).availableSpots =
      (s.capacity : Int) - (bookingCount db s.id : Int) ∧
    ((sessionView db viewer s).isAvailable = true ↔
      0 < (sessionView db viewer s).availableSpots) ∧
    (∀ m, sessionView db viewer { s with metadata := m } =
      sessionView db viewer s) ∧
    (viewer = none → (sessionView db viewer s).isBooked = false) ∧
    (∀ stu, viewer = some stu →
      ((sessionView db viewer s).isBooked = true ↔
        ∃ b ∈ db.bookings, b.studentId = stu ∧ b.sessionId = s.id)) := by
  refine ⟨List.mem_map_of_mem _ hs, rfl, ?_, fun m => rfl, ?_, ?_⟩
  · show decide (bookingCount db s.id < s.capacity) = true ↔
      (0 : Int) < (s.capacity : Int) - (bookingCount db s.id : Int)
    simp only [decide_eq_true_eq]
    omega
  · intro h
    subst h
    rfl
  · intro stu h
    subst h
    show (studentBookingsOf db stu).any
      (fun b => decide (b.sessionId = s.id)) = true ↔ _
    simp only [List.any_eq_true, studentBookingsOf, List.mem_filter,
      decide_eq_true_eq]
    constructor
    · rintro ⟨b, ⟨hb, hbst⟩, hbsid⟩
      exact ⟨b, hb, hbst, hbsid⟩
    · rintro ⟨b, hb, hbst, hbsid⟩
      exact ⟨b, ⟨hb, hbst⟩, hbsid⟩

/-- Witness for the amended C4 at the disabled session with a booking by
the viewing student. -/
theorem c4_amended_projection_witness :
    ((sessionView exDB4b (some "a") exS4).isAvailable = true ↔
      0 < (sessionView exDB4b (some "a") exS4).availableSpots) ∧
    ((sessionView exDB4b (some "a") exS4).isBooked = true ↔
      ∃ b ∈ exDB4b.bookings, b.studentId = "a" ∧ b.sessionId = exS4.id) := by
  have h := c4_amended_projection exDB4b (some "a") exS4 (by decide)
  exact ⟨h.2.2.1, h.2.2.2.2.2 "a" rfl⟩

/-- C5 counterexample: `exS5` is explicitly disabled
(`metadata.isEnabled === false`), yet a booking request for it passes the
validator and the transaction, and the booking row is inserted: neither
`validateSessionBooking` nor `createBooking` checks the enabled flag. -/
theorem c5_counterexample :
    sessionDisabled exS5 = true ∧
    createBooking exDB5 "a" 2 =
      Except.ok (⟨7, "a", 2⟩, ⟨[exS5], [⟨7, "a", 2⟩], 8⟩) :=
  ⟨rfl, rfl⟩

/-- C5 amended: a disabled session is treated exactly like an enabled
one: whenever the target session exists — even with
`metadata.isEnabled === false` — and the capacity, same-day, max-days and
duplicate conditions hold, `createBooking` succeeds and inserts the
booking for the disabled session. -/
theorem c5_amended_disabled_bookable (db : DB) (st : String) (sid : Nat)
    (s : Session) (hs : findSession db sid = some s)
    (hdis : sessionDisabled s = true)
    (hcap : bookingCount db sid < s.capacity)
    (hcap6 : bookingCount db sid < SESSION_CONSTRAINTS.MAX_CAPACITY)
    (hday : sameDayCheck db st s.day = false)
    (hmax : (studentBookingsOf db st).length <
      SESSION_CONSTRAINTS.MAX_DAYS_PER_STUDENT)
    (hdup : ∀ b ∈ db.bookings, ¬(b.studentId = st ∧ b.sessionId = sid)) :
    createBooking db st sid =
      Except.ok (⟨db.nextId, st, sid⟩,
        ⟨db.sessions, db.bookings ++ [⟨db.nextId, st, sid⟩], db.nextId + 1⟩) := by
  have hval : validateSessionBooking db st sid = .ok s := by
    unfold validateSessionBooking
    simp only [hs]
    rw [if_neg (by omega),
      if_neg (by rw [hday]; exact Bool.false_ne_true), if_neg (by omega)]
  exact createBookingWith_ok hval hs hcap hdup

/-- Witness for the amended C5 at the concrete disabled session. -/
theorem c5_amended_disabled_bookable_witness :
    createBooking exDB5 "a" 2 =
      Except.ok (⟨exDB5.nextId, "a", 2⟩,
        ⟨exDB5.sessions, exDB5.bookings ++ [⟨exDB5.nextId, "a", 2⟩],
         exDB5.nextId + 1⟩) :=
  c5_amended_disabled_bookable exDB5 "a" 2 exS5 rfl rfl (by decide) (by decide)
    rfl (by decide) (by decide)

theorem formatSessions_nextId_irrel (ss : List Session) (bb : List Booking)
    (n m : Nat) (viewer : Option String) :
    formatSessions ⟨ss, bb, n⟩ viewer = formatSessions ⟨ss, bb, m⟩ viewer := rfl

/-- C9: Round-trip. Under fresh booking ids, a successful
`createBooking(st, sid)` followed by `cancelBooking` of the returned
booking restores the ledger: the booking list, every session's booking
count and the whole availability projection equal their pre-booking
values, and the student holds no booking for that session afterwards. -/
theorem c9_round_trip (db : DB) (st : String) (sid : Nat) (bk : Booking)
    (db₁ : DB) (hfresh : ∀ b ∈ db.bookings, b.id < db.nextId)
    (h : createBooking db st sid = Except.ok (bk, db₁)) :
    ∃ info db₂, deleteBooking db₁ st bk.id = Except.ok (info, db₂) ∧
      db₂.bookings = db.bookings ∧
      db₂.sessions = db.sessions ∧
      bookingCount db₂ sid = bookingCount db sid ∧
      (∀ viewer, formatSessions db₂ viewer = formatSessions db viewer) ∧
      (∀ b ∈ db₂.bookings, ¬(b.studentId = st ∧ b.sessionId = sid)) := by
  obtain ⟨⟨s0, hval⟩, ⟨s', hfind, hcap⟩, hdup, hbk, hdb1⟩ := createBookingWith_ok_inv h
  subst hbk
  subst hdb1
  have hfind? : (db.bookings ++ [(⟨db.nextId, st, sid⟩ : Booking)]).find?
      (fun b => decide (b.id = db.nextId ∧ b.studentId = st)) =
      some ⟨db.nextId, st, sid⟩ := by
    rw [find?_append_of_none]
    · simp
    · intro x hx
      have hid := hfresh x hx
      simp only [decide_eq_false_iff_not]
      rintro ⟨hx1, -⟩
      omega
  have hfs : findSession
      (⟨db.sessions, db.bookings ++ [⟨db.nextId, st, sid⟩], db.nextId + 1⟩ : DB)
      sid = some s' := hfind
  have hfilter : (db.bookings ++ [(⟨db.nextId, st, sid⟩ : Booking)]).filter
      (fun b => !decide (b.id = db.nextId)) = db.bookings := by
    rw [List.filter_append]
    have h1 : db.bookings.filter (fun b => !decide (b.id = db.nextId)) =
        db.bookings := by
      apply filter_eq_self_of_all
      intro x hx
      have hid := hfresh x hx
      simp only [Bool.not_eq_eq_eq_not, Bool.not_true, decide_eq_false_iff_not]
      omega
    have h2 : ([(⟨db.nextId, st, sid⟩ : Booking)]).filter
        (fun b => !decide (b.id = db.nextId)) = [] := by simp
    rw [h1, h2, List.append_nil]
  have hdel : deleteBooking
      (⟨db.sessions, db.bookings ++ [⟨db.nextId, st, sid⟩], db.nextId + 1⟩ : DB)
      st db.nextId =
      Except.ok (⟨db.nextId, sid, s'.day, s'.timeSlot⟩,
        ⟨db.sessions, db.bookings, db.nextId + 1⟩) := by
    unfold deleteBooking
    simp only [hfind?]
    simp only [hfs]
    rw [hfilter]
  refine ⟨⟨db.nextId, sid, s'.day, s'.timeSlot⟩,
    ⟨db.sessions, db.bookings, db.nextId + 1⟩, hdel, rfl, rfl, rfl, ?_, hdup⟩
  intro viewer
  exact formatSessions_nextId_irrel db.sessions db.bookings (db.nextId + 1)
    db.nextId viewer

/-- Witness for C9: book the free Saturday session, cancel the returned
booking, and observe the restored store. -/
theorem c9_round_trip_witness :
    ∃ info db₂,
      deleteBooking ⟨[exS9], [⟨0, "a", 3⟩], 1⟩ "a" 0 = Except.ok (info, db₂) ∧
      db₂.bookings = exDB9.bookings ∧
      db₂.sessions = exDB9.sessions ∧
      bookingCount db₂ 3 = bookingCount exDB9 3 ∧
      (∀ viewer, formatSessions db₂ viewer = formatSessions exDB9 viewer) ∧
      (∀ b ∈ db₂.bookings, ¬(b.studentId = "a" ∧ b.sessionId = 3)) :=
  c9_round_trip exDB9 "a" 3 ⟨0, "a", 3⟩ ⟨[exS9], [⟨0, "a", 3⟩], 1⟩
    (by decide) rfl

/-- C10: Frame of the enable/disable PATCH. On an existing session the
PATCH succeeds and changes only the targeted session's metadata: the
ledger and the id counter are untouched (no booking is deleted), every
other session is untouched, and on the target only the `isEnabled`
metadata key is set — day, timeSlot and capacity are preserved and every
other metadata key keeps its value through the merge. -/
theorem c10_patch_frame (db : DB) (sid : Nat) (b : Bool) (s : Session)
    (hs : findSession db sid = some s) :
    ∃ db', patchSessionEnabled db sid b = Except.ok db' ∧
      db'.bookings = db.bookings ∧
      db'.nextId = db.nextId ∧
      db'.sessions = db.sessions.map
        (fun t => if t.id = sid then sessionSetEnabled t b else t) ∧
      (∀ t ∈ db.sessions, t.id ≠ sid → t ∈ db'.sessions) ∧
      (∀ t : Session, (sessionSetEnabled t b).day = t.day ∧
        (sessionSetEnabled t b).timeSlot = t.timeSlot ∧
        (sessionSetEnabled t b).capacity = t.capacity ∧
        metaFind ((sessionSetEnabled t b).metadata.getD []) "isEnabled" =
          some (MVal.bool b) ∧
        (∀ k, k ≠ "isEnabled" →
          metaFind ((sessionSetEnabled t b).metadata.getD []) k =
            metaFind (t.metadata.getD []) k)) := by
  refine ⟨⟨db.sessions.map
      (fun t => if t.id = sid then sessionSetEnabled t b else t),
      db.bookings, db.nextId⟩, ?_, rfl, rfl, rfl, ?_, ?_⟩
  · unfold patchSessionEnabled
    simp only [hs]
  · intro t ht hne
    exact List.mem_map.mpr ⟨t, ht, by rw [if_neg hne]⟩
  · intro t
    refine ⟨rfl, rfl, rfl, ?_, ?_⟩
    · exact metaFind_setMeta_self (t.metadata.getD []) "isEnabled" (MVal.bool b)
    · intro k hk
      exact metaFind_setMeta_other (t.metadata.getD []) "isEnabled" k
        (MVal.bool b) hk

/-- Witness for C10: disable `exS10`, which carries an unrelated metadata
key and one booking. -/
theorem c10_patch_frame_witness :
    ∃ db', patchSessionEnabled exDB10 0 false = Except.ok db' ∧
      db'.bookings = exDB10.bookings ∧
      db'.nextId = exDB10.nextId ∧
      db'.sessions = exDB10.sessions.map
        (fun t => if t.id = 0 then sessionSetEnabled t false else t) ∧
      (∀ t ∈ exDB10.sessions, t.id ≠ 0 → t ∈ db'.sessions) ∧
      (∀ t : Session, (sessionSetEnabled t false).day = t.day ∧
        (sessionSetEnabled t false).timeSlot = t.timeSlot ∧
        (sessionSetEnabled t false).capacity = t.capacity ∧
        metaFind ((sessionSetEnabled t false).metadata.getD []) "isEnabled" =
          some (MVal.bool false) ∧
        (∀ k, k ≠ "isEnabled" →
          metaFind ((sessionSetEnabled t false).metadata.getD []) k =
            metaFind (t.metadata.getD []) k)) :=
  c10_patch_frame exDB10 0 false exS10 rfl
